import Mathlib

/-!
# SmartTemplates core — shallow embedding

A shallow embedding of `src/smart_templates/core.py`: the registry
(`SmartTemplateRegistry`) with its registration table, pattern-resolver
chain and memoised lookup, the naming convention, and the rendering
dispatch (`render_safe`, `safe_macro`, `render_obj`) with its
exception-classification branches.

Python dictionaries are association lists with first-match lookup and
insertion that overwrites in place; Python exceptions are an inductive
type, and fallible code returns `Except`.  Enum variation values are a
tagged union carrying the enum type name, the member name and the
underlying value, so that `str(variation)` (which yields
`"TypeName.MEMBER"` for an enum member) and `variation.value` can both
be expressed.  Diagnostic-only payloads (`context_data`, `stack_trace`,
`timestamp`) of the error records are not modelled.
-/

namespace SmartTemplates

/-! ## Python string helpers -/

/-- `str.lower()` restricted to ASCII, as used on identifiers and
exception messages in the source. -/
def pyLower (s : String) : String :=
  ⟨s.data.map Char.toLower⟩

/-- Does some suffix of the haystack start with the needle? -/
def strContainsAux (needle : List Char) : List Char → Bool
  | [] => needle.isEmpty
  | c :: rest => List.isPrefixOf needle (c :: rest) || strContainsAux needle rest

/-- `needle in haystack` (Python `in` on `str`). -/
def strContains (hay needle : String) : Bool :=
  strContainsAux needle.data hay.data

/-- `":".join(parts)` / `"/".join(parts)`: join a list of strings with a
separator, as Python `str.join`. -/
def pyJoin (sep : String) : List String → String
  | [] => ""
  | [a] => a
  | a :: b :: rest => a ++ sep ++ pyJoin sep (b :: rest)

/-- The CamelCase → snake_case conversion of
`SmartTemplateRegistry._convention_based_name_from_strings`: insert `_`
before every uppercase character that is not at index 0, then lowercase
every character. -/
def snakeCase (s : String) : String :=
  (s.data.foldl
    (fun (acc : String × Nat) c =>
      (acc.1 ++ (if c.isUpper ∧ 0 < acc.2 then "_" else "")
             ++ (Char.toLower c).toString,
       acc.2 + 1))
    ("", 0)).1

/-! ## Python dictionaries as association lists -/

/-- A Python `dict` with string keys: an association list, looked up by
first match, in insertion order. -/
abbrev PyDict (α : Type) := List (String × α)

/-- `d.get(k)` / `d[k]`: first-match lookup. -/
def pyLookup {α : Type} : PyDict α → String → Option α
  | [], _ => none
  | (k', v) :: rest, k => if k' = k then some v else pyLookup rest k

/-- `d[k] = v`: overwrite in place if the key is present, else append. -/
def pyInsert {α : Type} : PyDict α → String → α → PyDict α
  | [], k, v => [(k, v)]
  | (k', v') :: rest, k, v =>
      if k' = k then (k, v) :: rest else (k', v') :: pyInsert rest k v

/-- `d.pop(k, None)` (the removal part): drop the first entry with the
given key. -/
def pyRemove {α : Type} : PyDict α → String → PyDict α
  | [], _ => []
  | (k', v') :: rest, k =>
      if k' = k then rest else (k', v') :: pyRemove rest k

/-- `d.setdefault(k, v)`: insert `(k, v)` at the end only when `k` is
absent. -/
def pySetdefault {α : Type} (d : PyDict α) (k : String) (v : α) : PyDict α :=
  if (pyLookup d k).isSome then d else d ++ [(k, v)]

/-- Keys of a dict produced by the registry operations are pairwise
distinct (Python dict keys are unique). -/
def DictKeysOK {α : Type} (d : PyDict α) : Prop :=
  (d.map Prod.fst).Nodup

/-! ## Registry data model -/

/-- A variation argument (`EnumStr = Union[str, Enum]`): either a plain
string, or a member of a `(str, Enum)` enum carrying its enum type name,
member name and underlying value (the repository's variation enums, e.g.
`EnrollmentStatus`, are all `(str, Enum)` mixins). -/
inductive Variation : Type
  | plain (s : String)
  | strEnumMember (typeName memberName value : String)
deriving DecidableEq, Repr

/-- Python truthiness of a variation argument: a plain string is truthy
when nonempty; a `(str, Enum)` member inherits `str` truthiness of its
value. -/
def variationTruthy : Variation → Bool
  | .plain s => s != ""
  | .strEnumMember _ _ v => v != ""

/-- `str(variation)`: a plain string is itself; an enum member prints as
`"TypeName.MEMBER"` (the `Enum.__str__` that `(str, Enum)` mixins use). -/
def variationPyStr : Variation → String
  | .plain s => s
  | .strEnumMember tyName memberName _ => tyName ++ "." ++ memberName

/-- `find_template`'s normalisation
`variation.value if isinstance(variation, Enum) else str(variation) if variation else None`:
an enum member becomes its underlying value, a truthy plain string stays
itself, a falsy variation becomes `None`. -/
def variationLookupStr : Option Variation → Option String
  | none => none
  | some (.strEnumMember _ _ v) => some v
  | some (.plain s) => if s != "" then some s else none

/-- `RegistrationType`: the kinds of Jinja2 registration the registry
accepts.  (`MACRO` is rendered as `macroReg` because of Lean keyword
constraints.) -/
inductive RegistrationType : Type
  | template
  | macroReg
  | filter
  | test
  | function
deriving DecidableEq, Repr

/-- `RegistrationConfig`: name, registration type, target, and the
optional key refinements.  `model_class` is represented by the class
`__name__` (the registry only ever reads `model.__name__` and the class
truthiness, which is always true). -/
structure RegistrationConfig : Type where
  name : String
  registrationType : RegistrationType
  target : String
  modelClass : Option String := none
  variation : Option Variation := none
deriving DecidableEq, Repr

/-- The result dictionaries of `find_template`:
`{"type": "template", "path": p}` or
`{"type": "macro", "template": t, "macro": m}`. -/
inductive Mapping : Type
  | template (path : String)
  | macroRef (templatePath macroName : String)
deriving DecidableEq, Repr

/-- `SmartTemplateRegistry._make_key`: start from the object type name,
append `model.__name__` when a model class is given (classes are always
truthy), append `str(variation)` when the variation is truthy, and join
with `":"`. -/
def makeKey (objTypeName : String) (model : Option String)
    (variation : Option Variation) : String :=
  pyJoin ":"
    ([objTypeName]
      ++ (match model with | some n => [n] | none => [])
      ++ (match variation with
          | some v => if variationTruthy v then [variationPyStr v] else []
          | none => []))

/-- The `":".join(filter(None, key_parts))` of `_find_template_cached`:
drop absent and empty components, then join with `":"`. -/
def joinKey (parts : List (Option String)) : String :=
  pyJoin ":" ((parts.filterMap id).filter (fun s => s != ""))

/-- Outcome of invoking one pattern function: it returns a mapping,
returns a falsy result (`None` or an empty dict), or raises. -/
inductive PatternResult : Type
  | ok (m : Option Mapping)
  | raises

/-- An object, observable through its runtime type name (plus an opaque
payload so that distinct objects of one type exist). -/
structure Obj : Type where
  typeName : String
  payload : Nat := 0
deriving DecidableEq, Repr

/-- A pattern function: called with the original object, model and
variation arguments. -/
abbrev PatternFn : Type := Obj → Option String → Option Variation → PatternResult

/-- Keys of the `lru_cache` on `_find_template_cached`:
`(obj_type_name, model_name, variation_str)`. -/
abbrev CacheKey : Type := String × Option String × Option String

/-- The memo table of `_find_template_cached`.  (The LRU bound of 256
only evicts entries; it never changes a stored value, so eviction is
not modelled.) -/
abbrev Cache : Type := List (CacheKey × Option Mapping)

/-- The mutable state of a `SmartTemplateRegistry`. -/
structure RegistryState : Type where
  registrations : PyDict RegistrationConfig
  patterns : List PatternFn
  cache : Cache

/-- A freshly constructed registry. -/
def emptyRegistry : RegistryState :=
  { registrations := [], patterns := [], cache := [] }

/-- `register`: insert/overwrite under `_make_key(obj_type,
config.model_class, config.variation)` and clear the cache. -/
def register (s : RegistryState) (objTypeName : String)
    (config : RegistrationConfig) : RegistryState :=
  { s with
    registrations :=
      pyInsert s.registrations
        (makeKey objTypeName config.modelClass config.variation) config,
    cache := [] }

/-- `unregister`: pop the key; clear the cache only when something was
removed; report whether anything was removed. -/
def unregister (s : RegistryState) (objTypeName : String)
    (model : Option String) (variation : Option Variation) :
    Bool × RegistryState :=
  let key := makeKey objTypeName model variation
  if (pyLookup s.registrations key).isSome then
    (true, { s with registrations := pyRemove s.registrations key, cache := [] })
  else
    (false, s)

/-- `clear`: drop registrations, patterns and the cache. -/
def clearRegistry (_s : RegistryState) : RegistryState :=
  emptyRegistry

/-- `register_pattern`: append to the resolver chain (no cache clear in
the source — the cache holds only registration outcomes). -/
def registerPattern (s : RegistryState) (p : PatternFn) : RegistryState :=
  { s with patterns := s.patterns ++ [p] }

/-- The `MACRO` / `TEMPLATE` dispatch on a found registration inside
`_find_template_cached`; any other registration type matches no branch
and the candidate loop continues. -/
def mappingOfConfig (config : RegistrationConfig) : Option Mapping :=
  match config.registrationType with
  | .macroReg => some (.macroRef config.target config.name)
  | .template => some (.template config.target)
  | _ => none

/-- The candidate loop of `_find_template_cached`: try each candidate
key in order; on a hit with a renderable registration return its
mapping, otherwise continue. -/
def tryKeys (regs : PyDict RegistrationConfig) :
    List (List (Option String)) → Option Mapping
  | [] => none
  | parts :: rest =>
    match pyLookup regs (joinKey parts) with
    | some config =>
      match mappingOfConfig config with
      | some mp => some mp
      | none => tryKeys regs rest
    | none => tryKeys regs rest

/-- The registration-table lookup of `_find_template_cached` (its pure
body): the four candidate keys in fixed order, most to least specific. -/
def pureLookup (regs : PyDict RegistrationConfig) (t : String)
    (m v : Option String) : Option Mapping :=
  tryKeys regs
    [[some t, m, v], [some t, m, none], [some t, none, v], [some t, none, none]]

/-- Lookup in the memo table of `_find_template_cached`. -/
def cacheLookup (c : Cache) (k : CacheKey) : Option (Option Mapping) :=
  (c.find? (fun p => p.1 = k)).map (·.2)

/-- `_find_template_cached` as called (memoised): consult the cache,
else compute over the current registrations and record the outcome. -/
def cachedLookup (s : RegistryState) (k : CacheKey) :
    Option Mapping × RegistryState :=
  match cacheLookup s.cache k with
  | some r => (r, s)
  | none =>
    let r := pureLookup s.registrations k.1 k.2.1 k.2.2
    (r, { s with cache := (k, r) :: s.cache })

/-- The pattern-resolver loop of `find_template`: first truthy result
wins; an exception is caught (logged) and treated as no match. -/
def runPatterns : List PatternFn → Obj → Option String → Option Variation →
    Option Mapping
  | [], _, _, _ => none
  | p :: rest, o, m, v =>
    match p o m v with
    | .ok (some mp) => some mp
    | _ => runPatterns rest o m v

/-- `_convention_based_name_from_strings`: snake-case the type name and
the model name, lowercase the variation, join with `"/"` and append
`".html"`. -/
def conventionName (objTypeName : String) (modelName variationStr : Option String) :
    String :=
  pyJoin "/"
    ([snakeCase objTypeName]
      ++ (match modelName with
          | some n => if n != "" then [snakeCase n] else []
          | none => [])
      ++ (match variationStr with
          | some s => if s != "" then [pyLower s] else []
          | none => []))
    ++ ".html"

/-- `find_template`: normalise the arguments, consult the memoised
registration lookup, then the pattern chain with the original arguments,
then the convention fallback.  Returns the mapping (`Option` mirrors the
`dict[str, str] | None` annotation) together with the registry state
after the call (the memo table may have gained an entry). -/
def find_template (s : RegistryState) (obj : Obj) (model : Option String)
    (variation : Option Variation) : Option Mapping × RegistryState :=
  let t := obj.typeName
  let vStr := variationLookupStr variation
  let cl := cachedLookup s (t, model, vStr)
  match cl.1 with
  | some mp => (some mp, cl.2)
  | none =>
    match runPatterns cl.2.patterns obj model variation with
    | some mp => (some mp, cl.2)
    | none => (some (.template (conventionName t model vStr)), cl.2)

/-! ## Rendering dispatch and error classification -/

/-- Context values (enough structure for the defaults the dispatcher
inserts: the rendered object and the debug flag). -/
inductive Val : Type
  | obj (o : Obj)
  | bool (b : Bool)
  | str (s : String)
  | int (n : Int)
deriving DecidableEq, Repr

/-- The exceptions the template engine can raise, as the dispatch code
distinguishes them.  `templateNotFound`, `templateSyntaxError` and
`otherTemplateError` are all subclasses of Jinja's `TemplateError`;
`undefinedError` is too, but is listed first in every handler chain. -/
inductive PyExc : Type
  | templateNotFound (msg : String)
  | undefinedError (msg : String) (lineno : Option Nat)
  | templateSyntaxError (msg : String) (lineno : Option Nat)
  | otherTemplateError (msg : String) (lineno : Option Nat)
  | typeError (msg : String)
  | otherError (typeName msg : String)
deriving DecidableEq, Repr

/-- `TemplateErrorDetail` (diagnostic-only fields `context_data`,
`stack_trace`, `timestamp` not modelled). -/
structure TemplateErrorDetail : Type where
  errorType : String
  message : String
  templateName : Option String := none
  macroName : Option String := none
  lineNumber : Option Nat := none
deriving DecidableEq, Repr

/-- `RenderError`: the structured failure value (always
`success = false` in the source). -/
structure RenderError : Type where
  success : Bool := false
  error : TemplateErrorDetail
deriving DecidableEq, Repr

/-- The engine behind `render_safe`: `get_template` + `render` in one
step, returning the rendered string or raising. -/
abbrev RenderEngine : Type := String → PyDict Val → Except PyExc String

/-- A loaded template module as `safe_macro` sees it: which macros it
defines, and the effect of calling one with the context as keyword
arguments. -/
structure TemplateModule : Type where
  macroDefined : String → Bool
  macroCall : String → PyDict Val → Except PyExc String

/-- The engine behind `safe_macro`: `env.get_template`, returning a
module or raising. -/
abbrev MacroEngine : Type := String → Except PyExc TemplateModule

/-- The `except` chain of `render_safe`, clause order `TemplateNotFound`,
`UndefinedError`, `TemplateSyntaxError`, `TemplateError`, `Exception`. -/
def classifyRenderExc (e : PyExc) (templateName : String) : TemplateErrorDetail :=
  match e with
  | .templateNotFound _ =>
      { errorType := "TemplateNotFound"
        message := "Template '" ++ templateName ++ "' not found in template directory"
        templateName := some templateName }
  | .undefinedError msg ln =>
      { errorType := "UndefinedVariable", message := msg
        templateName := some templateName, lineNumber := ln }
  | .templateSyntaxError msg ln =>
      { errorType := "TemplateSyntaxError", message := msg
        templateName := some templateName, lineNumber := ln }
  | .otherTemplateError msg ln =>
      { errorType := "TemplateError", message := msg
        templateName := some templateName, lineNumber := ln }
  | .typeError msg =>
      { errorType := "TypeError", message := msg
        templateName := some templateName }
  | .otherError typeName msg =>
      { errorType := typeName, message := msg
        templateName := some templateName }

/-- `SmartTemplates.render_safe`: copy the context, default
`debug_mode`, render, and convert any engine exception into a
`RenderError`.  Typed `Except` like every fallible call; every branch
returns `.ok`. -/
def render_safe (debugMode : Bool) (engine : RenderEngine)
    (templateName : String) (context : PyDict Val) :
    Except PyExc (String × Option RenderError) :=
  let templateContext := pySetdefault context "debug_mode" (.bool debugMode)
  match engine templateName templateContext with
  | .ok rendered => .ok (rendered, none)
  | .error e => .ok ("", some { error := classifyRenderExc e templateName })

/-- The lowered message test of `safe_macro`'s `TypeError` handler:
`"arguments" in str(e).lower() or "unexpected keyword" in str(e).lower()`. -/
def typeErrorLooksLikeArgs (msg : String) : Bool :=
  strContains (pyLower msg) "arguments" || strContains (pyLower msg) "unexpected keyword"

/-- The `except` chain of `safe_macro`, clause order `UndefinedError`,
`TemplateError`, `TypeError`, `Exception`.  A `TypeError` whose message
does not look like an argument-binding failure is re-raised
(`raise`) — the only propagating branch. -/
def classifyMacroExc (e : PyExc) (templateName macroName : String) :
    Except PyExc (String × Option RenderError) :=
  match e with
  | .undefinedError msg _ =>
      .ok ("", some { error :=
        { errorType := "UndefinedVariable", message := msg
          templateName := some templateName, macroName := some macroName } })
  | .templateNotFound msg =>
      .ok ("", some { error :=
        { errorType := "TemplateError", message := msg
          templateName := some templateName, macroName := some macroName } })
  | .templateSyntaxError msg ln =>
      .ok ("", some { error :=
        { errorType := "TemplateError", message := msg
          templateName := some templateName, macroName := some macroName
          lineNumber := ln } })
  | .otherTemplateError msg ln =>
      .ok ("", some { error :=
        { errorType := "TemplateError", message := msg
          templateName := some templateName, macroName := some macroName
          lineNumber := ln } })
  | .typeError msg =>
      if typeErrorLooksLikeArgs msg then
        .ok ("", some { error :=
          { errorType := "MacroArgumentError"
            message := "Macro '" ++ macroName ++ "' called with wrong arguments: " ++ msg
            templateName := some templateName, macroName := some macroName } })
      else
        .error (.typeError msg)
  | .otherError typeName msg =>
      .ok ("", some { error :=
        { errorType := typeName, message := msg
          templateName := some templateName, macroName := some macroName } })

/-- `SmartTemplates.safe_macro`: copy the context, default
`debug_mode`, load the template, check the macro exists
(`MacroNotFound` without invoking it), call it, and classify any raised
exception — except the re-raised non-argument `TypeError`. -/
def safeMacroCall (debugMode : Bool) (env : MacroEngine)
    (templateName macroName : String) (context : PyDict Val) :
    Except PyExc (String × Option RenderError) :=
  let templateContext := pySetdefault context "debug_mode" (.bool debugMode)
  match env templateName with
  | .error e => classifyMacroExc e templateName macroName
  | .ok tmpl =>
    if tmpl.macroDefined macroName then
      match tmpl.macroCall macroName templateContext with
      | .ok rendered => .ok (rendered, none)
      | .error e => classifyMacroExc e templateName macroName
    else
      .ok ("", some { error :=
        { errorType := "MacroNotFound"
          message := "Macro '" ++ macroName ++ "' not found in template '"
                       ++ templateName ++ "'"
          templateName := some templateName, macroName := some macroName } })

/-! ## `render_obj` over an explicit heap of dictionaries

`render_obj` copies the caller's context and mutates only the copy; to
state that as a frame property the dictionaries live in a small heap and
the caller's context is passed by reference. -/

/-- A heap of Python dictionaries; a reference is an index. -/
abbrev Heap : Type := List (PyDict Val)

/-- Dereference (out-of-range reads give the empty dict). -/
def heapGet (h : Heap) (r : Nat) : PyDict Val :=
  h.getD r []

/-- Overwrite the dict behind a reference. -/
def heapSet (h : Heap) (r : Nat) (d : PyDict Val) : Heap :=
  h.set r d

/-- `context.copy()`: allocate a fresh dict holding the same entries. -/
def heapAlloc (h : Heap) (d : PyDict Val) : Heap × Nat :=
  (h ++ [d], h.length)

/-- The error detail of `render_obj`'s `if not mapping` branch (the
f-string reprs of `model`/`variation` are abbreviated to the type
name). -/
def noTemplateDetail (obj : Obj) : TemplateErrorDetail :=
  { errorType := "TemplateNotFound"
    message := "No template found for " ++ obj.typeName }

/-- `SmartTemplates.render_obj`: resolve through the registry, copy the
caller's context (referenced by `ctxRef`), default the `"object"` key on
the copy, and dispatch on the mapping variant.  Returns the dispatch
result (which propagates whatever `safe_macro` re-raises), the heap and
the registry state after the call. -/
def render_obj (st : RegistryState) (debugMode : Bool)
    (tmplEngine : RenderEngine) (macroEngine : MacroEngine) (obj : Obj)
    (h : Heap) (ctxRef : Nat) (model : Option String)
    (variation : Option Variation) :
    Except PyExc (String × Option RenderError) × Heap × RegistryState :=
  let ft := find_template st obj model variation
  let st₁ := ft.2
  match ft.1 with
  | none =>
      (.ok ("", some { error := noTemplateDetail obj }), h, st₁)
  | some mp =>
    let al := heapAlloc h (heapGet h ctxRef)
    let h₁ := al.1
    let rcRef := al.2
    let h₂ := heapSet h₁ rcRef
      (pySetdefault (heapGet h₁ rcRef) "object" (.obj obj))
    let renderContext := heapGet h₂ rcRef
    match mp with
    | .macroRef tmplPath macroName =>
        (safeMacroCall debugMode macroEngine tmplPath macroName renderContext,
         h₂, st₁)
    | .template path =>
        (render_safe debugMode tmplEngine path renderContext, h₂, st₁)

/-! ## Notions used by the verification statements -/

/-- Whether a fallible call completed without raising. -/
def exceptIsOk {ε α : Type} : Except ε α → Bool
  | .ok _ => true
  | .error _ => false

/-- Cache coherence: every memo-table entry agrees with the
registration-table lookup it memoises (maintained by the registry: every
mutation of the table clears the cache, and entries are only ever added
by `cachedLookup` itself). -/
def CacheOK (s : RegistryState) : Prop :=
  ∀ k r, cacheLookup s.cache k = some r →
    r = pureLookup s.registrations k.1 k.2.1 k.2.2

/-- An engine whose macro invocation raises a `TypeError` that is not an
argument-binding failure (e.g. an arithmetic type error inside the macro
body). -/
def arithTypeErrorEngine : MacroEngine := fun _ =>
  .ok { macroDefined := fun _ => true
        macroCall := fun _ _ =>
          .error (.typeError "unsupported operand type(s) for +: 'int' and 'NoneType'") }

/-- An engine whose macro invocation raises an argument-binding
`TypeError` (Python's message for an arity mismatch). -/
def arityErrorEngine : MacroEngine := fun _ =>
  .ok { macroDefined := fun _ => true
        macroCall := fun _ _ =>
          .error (.typeError "render_student() takes 2 positional arguments but 3 were given") }

/-- The enum-variation registration of the C2 scenario: register a
`Student` template under `variation = EnrollmentStatus.ACTIVE`
(underlying value `"active"`). -/
def enumVariationConfig : RegistrationConfig :=
  { name := "student/profile_special.html"
    registrationType := .template
    target := "student/profile_special.html"
    variation := some (.strEnumMember "EnrollmentStatus" "ACTIVE" "active") }

/-- A pattern function that never matches. -/
def neverMatchPattern : PatternFn := fun _ _ _ => .ok none

/-- A pattern function that always raises. -/
def alwaysRaisesPattern : PatternFn := fun _ _ _ => .raises

/-- A pattern function that always matches with a fixed target. -/
def alwaysMatchPattern : PatternFn := fun _ _ _ =>
  .ok (some (.template "pattern/override.html"))

/-- An engine that raises `UndefinedError` for every render attempt (a
template whose body dereferences a missing binding). -/
def undefinedVarEngine : RenderEngine := fun _ _ =>
  .error (.undefinedError "'student' is undefined" (some 3))

/-! ## Dictionary lemmas -/

@[simp] theorem pyLookup_nil {α : Type} (k : String) :
    pyLookup ([] : PyDict α) k = none := rfl

@[simp] theorem pyLookup_cons {α : Type} (k' k : String) (v : α) (rest : PyDict α) :
    pyLookup ((k', v) :: rest) k = if k' = k then some v else pyLookup rest k := rfl

theorem pyLookup_pyInsert_self {α : Type} (d : PyDict α) (k : String) (v : α) :
    pyLookup (pyInsert d k v) k = some v := by
  induction d with
  | nil => simp [pyInsert]
  | cons hd tl ih =>
    obtain ⟨k', v'⟩ := hd
    by_cases hk : k' = k <;> simp [pyInsert, hk, ih]

theorem pyLookup_pyInsert_ne {α : Type} (d : PyDict α) (k k' : String) (v : α)
    (h : k ≠ k') : pyLookup (pyInsert d k v) k' = pyLookup d k' := by
  induction d with
  | nil => simp [pyInsert, h]
  | cons hd tl ih =>
    obtain ⟨k₀, v₀⟩ := hd
    by_cases hk : k₀ = k
    · subst hk
      simp [pyInsert, h]
    · by_cases hk' : k₀ = k'
      · subst hk'
        simp [pyInsert, hk]
      · simp [pyInsert, hk, hk', ih]

theorem pyLookup_eq_none_of_not_mem {α : Type} (d : PyDict α) (k : String)
    (h : k ∉ d.map Prod.fst) : pyLookup d k = none := by
  induction d with
  | nil => rfl
  | cons hd tl ih =>
    obtain ⟨k', v'⟩ := hd
    simp only [List.map_cons, List.mem_cons] at h
    push_neg at h
    rw [pyLookup_cons, if_neg (fun hc => h.1 hc.symm)]
    exact ih h.2

theorem pyLookup_pyRemove_self {α : Type} (d : PyDict α) (k : String)
    (hd : DictKeysOK d) : pyLookup (pyRemove d k) k = none := by
  induction d with
  | nil => simp [pyRemove]
  | cons hdp tl ih =>
    obtain ⟨k', v'⟩ := hdp
    unfold DictKeysOK at hd
    simp only [List.map_cons, List.nodup_cons] at hd
    by_cases hk : k' = k
    · subst hk
      simp only [pyRemove, if_pos rfl]
      exact pyLookup_eq_none_of_not_mem tl k' hd.1
    · simp only [pyRemove, if_neg hk]
      rw [pyLookup_cons, if_neg hk]
      exact ih hd.2

theorem pyLookup_pySetdefault_present {α : Type} (d : PyDict α) (k : String) (v : α)
    (h : (pyLookup d k).isSome) : pySetdefault d k v = d := by
  simp [pySetdefault, h]

theorem pyLookup_pySetdefault_absent {α : Type} (d : PyDict α) (k : String) (v : α)
    (h : pyLookup d k = none) : pyLookup (pySetdefault d k v) k = some v := by
  simp only [pySetdefault, h, Option.isSome_none, Bool.false_eq_true, if_false]
  induction d with
  | nil => simp
  | cons hd tl ih =>
    obtain ⟨k', v'⟩ := hd
    rw [pyLookup_cons] at h
    by_cases hk : k' = k
    · simp [hk] at h
    · simpa [hk] using ih (by simpa [hk] using h)

theorem pyLookup_append_of_some {α : Type} (d e : PyDict α) (k : String)
    (w : α) (h : pyLookup d k = some w) : pyLookup (d ++ e) k = some w := by
  induction d with
  | nil => simp at h
  | cons hd tl ih =>
    obtain ⟨k₀, v₀⟩ := hd
    rw [pyLookup_cons] at h
    by_cases hk : k₀ = k
    · rw [List.cons_append, pyLookup_cons, if_pos hk]
      rwa [if_pos hk] at h
    · rw [List.cons_append, pyLookup_cons, if_neg hk]
      rw [if_neg hk] at h
      exact ih h

theorem pyLookup_pySetdefault_of_some {α : Type} (d : PyDict α) (k k' : String)
    (v w : α) (h : pyLookup d k' = some w) :
    pyLookup (pySetdefault d k v) k' = some w := by
  unfold pySetdefault
  by_cases hp : (pyLookup d k).isSome
  · rw [if_pos hp]; exact h
  · rw [if_neg hp]; exact pyLookup_append_of_some d _ k' w h

/-! ## String lemmas -/

theorem string_data_append (a b : String) : (a ++ b).data = a.data ++ b.data := by
  cases a; cases b; rfl

theorem string_eq_of_data {a b : String} (h : a.data = b.data) : a = b := by
  cases a; cases b; exact congrArg String.mk h

theorem string_append_left_cancel {a b c : String} (h : a ++ b = a ++ c) :
    b = c := by
  apply string_eq_of_data
  have hd := congrArg String.data h
  rw [string_data_append, string_data_append] at hd
  exact List.append_cancel_left hd

theorem string_ne_of_data_length {a b : String}
    (h : a.data.length ≠ b.data.length) : a ≠ b :=
  fun he => h (by rw [he])

theorem string_length_append (a b : String) :
    (a ++ b).data.length = a.data.length + b.data.length := by
  rw [string_data_append, List.length_append]

/-! ## Basic registry lemmas -/

theorem cacheLookup_nil (k : CacheKey) : cacheLookup [] k = none := rfl

theorem pureLookup_nil (t : String) (m v : Option String) :
    pureLookup [] t m v = none := rfl

theorem runPatterns_nil (o : Obj) (m : Option String) (v : Option Variation) :
    runPatterns [] o m v = none := rfl

/-- The bare candidate key `(t, absent, absent)` built by the lookup
coincides with the registration key `_make_key(t, None, None)`. -/
theorem joinKey_bare (t : String) :
    joinKey [some t, none, none] = makeKey t none none := by
  by_cases ht : t = ""
  · simp [joinKey, makeKey, pyJoin, ht]
  · simp [joinKey, makeKey, pyJoin, ht]

/-- Evaluating `find_template` from a clean cache: registration lookup
first, then the pattern chain, then the convention fallback. -/
theorem find_template_eval (s : RegistryState) (obj : Obj)
    (model : Option String) (variation : Option Variation)
    (hcache : s.cache = []) :
    (find_template s obj model variation).1 =
      match pureLookup s.registrations obj.typeName model
          (variationLookupStr variation) with
      | some mp => some mp
      | none =>
        match runPatterns s.patterns obj model variation with
        | some mp => some mp
        | none => some (.template (conventionName obj.typeName model
            (variationLookupStr variation))) := by
  cases hp : pureLookup s.registrations obj.typeName model
      (variationLookupStr variation) with
  | some mp => simp [find_template, cachedLookup, hcache, cacheLookup, hp]
  | none =>
    cases hr : runPatterns s.patterns obj model variation with
    | some mp => simp [find_template, cachedLookup, hcache, cacheLookup, hp, hr]
    | none => simp [find_template, cachedLookup, hcache, cacheLookup, hp, hr]

/-- Evaluating `find_template` under cache coherence: a cached entry
agrees with the live registration lookup, so the result is the same
three-layer cascade. -/
theorem find_template_eval_of_cacheOK (s : RegistryState) (obj : Obj)
    (model : Option String) (variation : Option Variation)
    (hc : CacheOK s) :
    (find_template s obj model variation).1 =
      match pureLookup s.registrations obj.typeName model
          (variationLookupStr variation) with
      | some mp => some mp
      | none =>
        match runPatterns s.patterns obj model variation with
        | some mp => some mp
        | none => some (.template (conventionName obj.typeName model
            (variationLookupStr variation))) := by
  cases h : cacheLookup s.cache
      (obj.typeName, model, variationLookupStr variation) with
  | some r =>
    have hr := hc _ r h
    cases hp : pureLookup s.registrations obj.typeName model
        (variationLookupStr variation) with
    | some mp => simp [find_template, cachedLookup, h, hr, hp]
    | none =>
      cases hq : runPatterns s.patterns obj model variation with
      | some mp => simp [find_template, cachedLookup, h, hr, hp, hq]
      | none => simp [find_template, cachedLookup, h, hr, hp, hq]
  | none =>
    cases hp : pureLookup s.registrations obj.typeName model
        (variationLookupStr variation) with
    | some mp => simp [find_template, cachedLookup, h, hp]
    | none =>
      cases hq : runPatterns s.patterns obj model variation with
      | some mp => simp [find_template, cachedLookup, h, hp, hq]
      | none => simp [find_template, cachedLookup, h, hp, hq]

/-- Every error record manufactured by `render_safe`'s handlers carries
the template name. -/
theorem render_safe_error_templateName (d : Bool) (engine : RenderEngine)
    (tn : String) (ctx : PyDict Val) (res : String) (re : RenderError)
    (h : render_safe d engine tn ctx = .ok (res, some re)) :
    re.error.templateName = some tn := by
  unfold render_safe at h
  cases he : engine tn (pySetdefault ctx "debug_mode" (.bool d)) with
  | ok r => simp only [he] at h; simp at h
  | error e =>
    simp only [he] at h
    cases e
    all_goals
      simp only [classifyRenderExc] at h
      simp at h
      obtain ⟨h1, h2⟩ := h
      subst h2
      rfl

/-- Every error record manufactured by `safe_macro`'s handlers carries
the macro name. -/
theorem classifyMacroExc_error_macroName (e : PyExc) (tn mn res : String)
    (re : RenderError) (h : classifyMacroExc e tn mn = .ok (res, some re)) :
    re.error.macroName = some mn := by
  cases e
  case typeError msg =>
    by_cases harg : typeErrorLooksLikeArgs msg = true
    · simp only [classifyMacroExc, harg, if_true] at h
      simp at h
      obtain ⟨h1, h2⟩ := h
      subst h2
      rfl
    · simp only [classifyMacroExc, harg, if_false] at h
      simp at h
  all_goals
    simp only [classifyMacroExc] at h
    simp at h
    obtain ⟨h1, h2⟩ := h
    subst h2
    rfl

/-- As `classifyMacroExc_error_macroName`, lifted through `safeMacroCall`
(the `MacroNotFound` precondition branch included). -/
theorem safeMacroCall_error_macroName (d : Bool) (env : MacroEngine)
    (tn mn : String) (ctx : PyDict Val) (res : String) (re : RenderError)
    (h : safeMacroCall d env tn mn ctx = .ok (res, some re)) :
    re.error.macroName = some mn := by
  unfold safeMacroCall at h
  cases he : env tn with
  | error e =>
    simp only [he] at h
    exact classifyMacroExc_error_macroName e tn mn res re h
  | ok tmpl =>
    simp only [he] at h
    by_cases hdef : tmpl.macroDefined mn = true
    · simp only [hdef, if_true] at h
      cases hc : tmpl.macroCall mn (pySetdefault ctx "debug_mode" (.bool d)) with
      | ok r => simp only [hc] at h; simp at h
      | error e =>
        simp only [hc] at h
        exact classifyMacroExc_error_macroName e tn mn res re h
    · simp only [hdef, if_false] at h
      simp at h
      obtain ⟨h1, h2⟩ := h
      subst h2
      rfl

/-- `safe_macro`'s classifier either returns a structured pair or
re-raises a `TypeError` whose message does not look like an
argument-binding failure. -/
theorem classifyMacroExc_containment (e : PyExc) (tn mn : String) :
    exceptIsOk (classifyMacroExc e tn mn) = true
  ∨ ∃ msg, classifyMacroExc e tn mn = .error (.typeError msg)
      ∧ typeErrorLooksLikeArgs msg = false := by
  cases e
  case typeError msg =>
    by_cases harg : typeErrorLooksLikeArgs msg = true
    · left
      simp [classifyMacroExc, harg, exceptIsOk]
    · right
      exact ⟨msg, by simp [classifyMacroExc, harg], by simpa using harg⟩
  all_goals
    left
    simp [classifyMacroExc, exceptIsOk]

/-- Frame fact: writing through a freshly allocated reference leaves
every previously allocated cell unchanged. -/
theorem heapGet_set_append (h : Heap) (c d : PyDict Val) (r : Nat)
    (hr : r < h.length) :
    heapGet (heapSet (h ++ [c]) h.length d) r = heapGet h r := by
  unfold heapGet heapSet
  rw [List.getD_eq_getElem?_getD, List.getD_eq_getElem?_getD]
  rw [List.getElem?_set_ne (Nat.ne_of_gt hr)]
  rw [List.getElem?_append_left hr]

/-! ## Claim theorems -/

/-- C7: with no registrations and no pattern resolvers the resolution is
the deterministic convention fallback, which snake-cases identifiers; in
particular `StudentRecord` resolves to `student_record.html`, and with
secondary type `Enrollment` and variation `"completed"` to
`student_record/enrollment/completed.html`. -/
theorem c7_convention_fallback :
    (∀ (obj : Obj) (model : Option String) (variation : Option Variation),
      (find_template emptyRegistry obj model variation).1
        = some (.template (conventionName obj.typeName model (variationLookupStr variation))))
  ∧ (find_template emptyRegistry ⟨"StudentRecord", 0⟩ none none).1
      = some (.template "student_record.html")
  ∧ (find_template emptyRegistry ⟨"StudentRecord", 0⟩ (some "Enrollment")
        (some (.plain "completed"))).1
      = some (.template "student_record/enrollment/completed.html") :=
  ⟨fun _ _ _ => rfl, by decide, by decide⟩

/-- C2 (divergence witness): registering with an enum variation stores
the key under `str(variation) = "EnrollmentStatus.ACTIVE"`, while the
lookup normalises the variation to its underlying value `"active"` — so
the lookup with `"active"`, and even the lookup with the very same enum
member, miss the registration and fall through to the convention
fallback (`student/active.html`), not the registered target
(`student/profile_special.html`). -/
theorem c2_enum_registration_lookup_mismatch :
    makeKey "Student" none (some (.strEnumMember "EnrollmentStatus" "ACTIVE" "active"))
      = "Student:EnrollmentStatus.ACTIVE"
  ∧ (register emptyRegistry "Student" enumVariationConfig).registrations
      = [("Student:EnrollmentStatus.ACTIVE", enumVariationConfig)]
  ∧ (find_template (register emptyRegistry "Student" enumVariationConfig)
        ⟨"Student", 0⟩ none (some (.plain "active"))).1
      = some (.template "student/active.html")
  ∧ (find_template (register emptyRegistry "Student" enumVariationConfig)
        ⟨"Student", 0⟩ none
        (some (.strEnumMember "EnrollmentStatus" "ACTIVE" "active"))).1
      = some (.template "student/active.html") := by
  refine ⟨by decide, by decide, by decide, by decide⟩

/-- C4: under cache coherence, resolution is total (always `some`), it
layers explicit registrations over pattern resolvers over the
convention fallback in that order, and consequently the
"no template found" branch of `render_obj` can never produce its error
value. -/
theorem c4_resolution_total_and_layered (s : RegistryState) (obj : Obj)
    (model : Option String) (variation : Option Variation)
    (hc : CacheOK s) :
    ((find_template s obj model variation).1).isSome = true
  ∧ (∀ mp, pureLookup s.registrations obj.typeName model
        (variationLookupStr variation) = some mp →
      (find_template s obj model variation).1 = some mp)
  ∧ (pureLookup s.registrations obj.typeName model
        (variationLookupStr variation) = none →
      ∀ mp, runPatterns s.patterns obj model variation = some mp →
      (find_template s obj model variation).1 = some mp)
  ∧ (pureLookup s.registrations obj.typeName model
        (variationLookupStr variation) = none →
      runPatterns s.patterns obj model variation = none →
      (find_template s obj model variation).1
        = some (.template (conventionName obj.typeName model
            (variationLookupStr variation))))
  ∧ (∀ (d : Bool) (te : RenderEngine) (me : MacroEngine) (h : Heap) (r : Nat),
      (render_obj s d te me obj h r model variation).1
        ≠ .ok ("", some { error := noTemplateDetail obj })) := by
  have hev := find_template_eval_of_cacheOK s obj model variation hc
  have hsome : ∃ mp, (find_template s obj model variation).1 = some mp := by
    rw [hev]
    cases hp : pureLookup s.registrations obj.typeName model
        (variationLookupStr variation) with
    | some mp => exact ⟨mp, rfl⟩
    | none =>
      cases hq : runPatterns s.patterns obj model variation with
      | some mp => exact ⟨mp, by simp⟩
      | none =>
        exact ⟨.template (conventionName obj.typeName model
          (variationLookupStr variation)), by simp⟩
  refine ⟨?_, ?_, ?_, ?_, ?_⟩
  · obtain ⟨mp, hmp⟩ := hsome
    simp [hmp]
  · intro mp hp
    rw [hev]
    simp [hp]
  · intro hp mp hq
    rw [hev]
    simp [hp, hq]
  · intro hp hq
    rw [hev]
    simp [hp, hq]
  · intro d te me hh r heq
    obtain ⟨mp, hmp⟩ := hsome
    cases mp with
    | template p =>
      simp only [render_obj, hmp] at heq
      have hname := render_safe_error_templateName d te p _ ""
        { error := noTemplateDetail obj } heq
      simp [noTemplateDetail] at hname
    | macroRef tp mn =>
      simp only [render_obj, hmp] at heq
      have hname := safeMacroCall_error_macroName d me tp mn _ ""
        { error := noTemplateDetail obj } heq
      simp [noTemplateDetail] at hname

/-- Witness for C4 at a fresh registry (coherent empty cache). -/
theorem c4_resolution_total_and_layered_witness :
    CacheOK emptyRegistry
  ∧ ((find_template emptyRegistry ⟨"School", 0⟩ none none).1).isSome = true :=
  ⟨fun _ r h => by simp [cacheLookup, emptyRegistry] at h,
   (c4_resolution_total_and_layered emptyRegistry ⟨"School", 0⟩ none none
      (fun _ r h => by simp [cacheLookup, emptyRegistry] at h)).1⟩

/-- C5: with no registration hit, pattern resolvers run in registration
order and the first truthy result wins; a resolver that raises is
treated as no match, so a faulty resolver in front of a matching one
does not prevent the match. -/
theorem c5_pattern_order_and_fault_tolerance (obj : Obj) (m : Option String)
    (v : Option Variation) (tgt : Mapping) (A B F : PatternFn)
    (hA : ∀ o mm vv, A o mm vv = .ok none)
    (hB : ∀ o mm vv, B o mm vv = .ok (some tgt))
    (hF : ∀ o mm vv, F o mm vv = .raises) :
    (find_template { registrations := [], patterns := [A, B], cache := [] }
        obj m v).1 = some tgt
  ∧ (find_template { registrations := [], patterns := [A, F, B], cache := [] }
        obj m v).1 = some tgt := by
  constructor <;>
  · rw [find_template_eval _ _ _ _ rfl]
    simp [pureLookup_nil, runPatterns, hA, hB, hF]

/-- Witness for C5 with concrete resolvers. -/
theorem c5_pattern_order_and_fault_tolerance_witness :
    (find_template
      { registrations := [],
        patterns := [neverMatchPattern, alwaysRaisesPattern, alwaysMatchPattern],
        cache := [] }
      ⟨"Student", 0⟩ none none).1
    = some (.template "pattern/override.html") :=
  (c5_pattern_order_and_fault_tolerance ⟨"Student", 0⟩ none none
    (.template "pattern/override.html")
    neverMatchPattern alwaysMatchPattern alwaysRaisesPattern
    (fun _ _ _ => rfl) (fun _ _ _ => rfl) (fun _ _ _ => rfl)).2

/-- C6: `register` clears the whole cache, so a stale cached "not found"
for the bare key can no longer be returned — the fresh registration is;
`unregister` removes a present registration (clearing the cache) and
reports `true`, reports `false` and leaves the state alone when the key
is absent, and hence returns `true` then `false` when called twice. -/
theorem c6_mutation_cache_coherence (s : RegistryState) (T : String)
    (config : RegistrationConfig) (obj : Obj) (m : Option String)
    (v : Option Variation)
    (hobj : obj.typeName = T)
    (hmc : config.modelClass = none) (hvar : config.variation = none)
    (hty : config.registrationType = .template)
    (hkeys : DictKeysOK s.registrations) :
    ((register s T config).cache = [])
  ∧ ((find_template (register s T config) obj none none).1
      = some (.template config.target))
  ∧ ((pyLookup s.registrations (makeKey T m v)).isSome = true →
      (unregister s T m v).1 = true
      ∧ (unregister s T m v).2.cache = []
      ∧ (unregister (unregister s T m v).2 T m v).1 = false)
  ∧ (pyLookup s.registrations (makeKey T m v) = none →
      unregister s T m v = (false, s)) := by
  subst hobj
  refine ⟨rfl, ?_, ?_, ?_⟩
  · rw [find_template_eval _ _ _ _ rfl]
    have hkey : makeKey obj.typeName config.modelClass config.variation
        = makeKey obj.typeName none none := by rw [hmc, hvar]
    have hhit : pyLookup (register s obj.typeName config).registrations
        (joinKey [some obj.typeName, none, none]) = some config := by
      rw [joinKey_bare]
      simp only [register, hkey]
      exact pyLookup_pyInsert_self _ _ _
    simp [pureLookup, tryKeys, variationLookupStr, hhit, mappingOfConfig, hty]
  · intro hp
    refine ⟨by simp [unregister, hp], by simp [unregister, hp], ?_⟩
    have hgone : pyLookup (pyRemove s.registrations
        (makeKey obj.typeName m v)) (makeKey obj.typeName m v) = none :=
      pyLookup_pyRemove_self _ _ hkeys
    simp [unregister, hp, hgone]
  · intro hp
    simp [unregister, hp]

/-- Witness for C6: one registration, registered then unregistered. -/
theorem c6_mutation_cache_coherence_witness :
    (find_template
      (register (register emptyRegistry "School"
        { name := "school/dashboard.html", registrationType := .template,
          target := "school/dashboard.html" })
        "School"
        { name := "school/dashboard2.html", registrationType := .template,
          target := "school/dashboard2.html" })
      ⟨"School", 0⟩ none none).1 = some (.template "school/dashboard2.html")
  ∧ (unregister (register emptyRegistry "School"
      { name := "school/dashboard.html", registrationType := .template,
        target := "school/dashboard.html" }) "School" none none).1 = true :=
  have happ := c6_mutation_cache_coherence
    (register emptyRegistry "School"
      { name := "school/dashboard.html", registrationType := .template,
        target := "school/dashboard.html" })
    "School"
    { name := "school/dashboard2.html", registrationType := .template,
      target := "school/dashboard2.html" }
    ⟨"School", 0⟩ none none rfl rfl rfl rfl
    (by simp [DictKeysOK, register, emptyRegistry, pyInsert])
  ⟨happ.2.1, (happ.2.2.1 (by decide)).1⟩

/-- C8: `render_safe` is total — every engine outcome is turned into a
returned pair — and an `UndefinedError` raised by the engine (the
template referenced a binding absent from the context) comes back as
`("", error)` with `error_type = "UndefinedVariable"`. -/
theorem c8_render_template_total_and_classifies (d : Bool)
    (engine : RenderEngine) (tn : String) (ctx : PyDict Val) :
    exceptIsOk (render_safe d engine tn ctx) = true
  ∧ (∀ msg ln,
      engine tn (pySetdefault ctx "debug_mode" (.bool d))
        = .error (.undefinedError msg ln) →
      render_safe d engine tn ctx
        = .ok ("", some { error :=
            { errorType := "UndefinedVariable", message := msg,
              templateName := some tn, lineNumber := ln } })) := by
  constructor
  · unfold render_safe
    cases he : engine tn (pySetdefault ctx "debug_mode" (.bool d)) <;>
      simp [he, exceptIsOk]
  · intro msg ln he
    unfold render_safe
    simp [he, classifyRenderExc]

/-- Witness for C8 with an engine that raises `UndefinedError`. -/
theorem c8_render_template_total_and_classifies_witness :
    undefinedVarEngine "student/profile.html"
      (pySetdefault [] "debug_mode" (.bool false))
      = .error (.undefinedError "'student' is undefined" (some 3))
  ∧ render_safe false undefinedVarEngine "student/profile.html" []
      = .ok ("", some { error :=
          { errorType := "UndefinedVariable",
            message := "'student' is undefined",
            templateName := some "student/profile.html",
            lineNumber := some 3 } }) :=
  ⟨rfl,
   (c8_render_template_total_and_classifies false undefinedVarEngine
      "student/profile.html" []).2 "'student' is undefined" (some 3) rfl⟩

/-- C10: for any type name and identifier, the key built for
`(T, secondary X, no variation)` and the key built for
`(T, no secondary, variation X)` coincide (`"T:X"`), registering one
overwrites the other, and the registration-table lookup cannot
distinguish the two argument combinations. -/
theorem c10_secondary_variation_key_collision (T X : String) (hX : X ≠ "") :
    makeKey T (some X) none = makeKey T none (some (.plain X))
  ∧ (∀ c₁ c₂ : RegistrationConfig,
      pyInsert (pyInsert [] (makeKey T (some X) none) c₁)
        (makeKey T none (some (.plain X))) c₂
        = [(makeKey T (some X) none, c₂)])
  ∧ (∀ regs : PyDict RegistrationConfig,
      pureLookup regs T (some X) none = pureLookup regs T none (some X)) := by
  have hXb : (X != "") = true := by simpa using hX
  have hkey : makeKey T (some X) none = makeKey T none (some (.plain X)) := by
    simp [makeKey, variationTruthy, variationPyStr, hXb]
  refine ⟨hkey, ?_, ?_⟩
  · intro c₁ c₂
    rw [← hkey]
    simp [pyInsert]
  · intro regs
    simp only [pureLookup]
    simp only [tryKeys]
    simp only [show joinKey [some T, none, some X] = joinKey [some T, some X, none] from rfl]
    cases h1 : pyLookup regs (joinKey [some T, some X, none]) with
    | none =>
      cases h2 : pyLookup regs (joinKey [some T, none, none]) with
      | none => simp [h1, h2]
      | some c => cases h3 : mappingOfConfig c <;> simp [h1, h2, h3]
    | some c =>
      cases h2 : mappingOfConfig c with
      | some mp => simp [h1, h2]
      | none =>
        cases h3 : pyLookup regs (joinKey [some T, none, none]) with
        | none => simp [h1, h2, h3]
        | some c₂ => cases h4 : mappingOfConfig c₂ <;> simp [h1, h2, h3, h4]

/-- C3: a hit on a candidate key with a renderable registration is
returned at once (the four candidate keys are tried most specific
first), and in the tie-break scenario — one registration keyed only by
the secondary type, one keyed only by the variation, a lookup supplying
both — the secondary-type registration wins. -/
theorem c3_secondary_outranks_variation (T S V n₁ n₂ t₁ t₂ : String)
    (hT : T ≠ "") (hS : S ≠ "") (hV : V ≠ "") (hSV : S ≠ V) :
    (∀ (regs : PyDict RegistrationConfig) (t : String) (m v : Option String)
       (cfg : RegistrationConfig) (mp : Mapping),
       pyLookup regs (joinKey [some t, m, v]) = some cfg →
       mappingOfConfig cfg = some mp →
       pureLookup regs t m v = some mp)
  ∧ (find_template
      (register
        (register emptyRegistry T
          { name := n₁, registrationType := .template, target := t₁,
            modelClass := some S })
        T
        { name := n₂, registrationType := .template, target := t₂,
          variation := some (.plain V) })
      ⟨T, 0⟩ (some S) (some (.plain V))).1 = some (.template t₁) := by
  have hSb : (S != "") = true := by simpa using hS
  have hVb : (V != "") = true := by simpa using hV
  have hTb : (T != "") = true := by simpa using hT
  constructor
  · intro regs t m v cfg mp h1 h2
    simp [pureLookup, tryKeys, h1, h2]
  · -- the registration keys
    have hkey1 : makeKey T (some S) none = T ++ ":" ++ S := by
      simp [makeKey, pyJoin]
    have hkey2 : makeKey T none (some (.plain V)) = T ++ ":" ++ V := by
      simp [makeKey, pyJoin, variationTruthy, variationPyStr, hVb]
    -- the candidate keys of the lookup
    have hcand1 : joinKey [some T, some S, some V] = T ++ ":" ++ (S ++ ":" ++ V) := by
      simp [joinKey, pyJoin, hTb, hSb, hVb]
    have hcand2 : joinKey [some T, some S, none] = T ++ ":" ++ S := by
      simp [joinKey, pyJoin, hTb, hSb]
    -- key distinctness
    have hne12 : T ++ ":" ++ S ≠ T ++ ":" ++ V :=
      fun h => hSV (string_append_left_cancel h)
    have hcolonlen : (":" : String).data.length = 1 := rfl
    have hneA : T ++ ":" ++ S ≠ T ++ ":" ++ (S ++ ":" ++ V) := by
      intro h
      have h4 : S = S ++ ":" ++ V := string_append_left_cancel h
      have h5 : (S ++ ":" ++ V).data.length
          = S.data.length + 1 + V.data.length := by
        simp only [string_length_append, hcolonlen]
      have h6 : S.data.length = S.data.length + 1 + V.data.length := by
        rw [← h5, ← h4]
      omega
    have hneB : T ++ ":" ++ V ≠ T ++ ":" ++ (S ++ ":" ++ V) := by
      intro h
      have h4 : V = S ++ ":" ++ V := string_append_left_cancel h
      have h5 : (S ++ ":" ++ V).data.length
          = S.data.length + 1 + V.data.length := by
        simp only [string_length_append, hcolonlen]
      have h6 : V.data.length = S.data.length + 1 + V.data.length := by
        rw [← h5, ← h4]
      omega
    -- the registration table after the two `register` calls
    have hregs :
        (register
          (register emptyRegistry T
            { name := n₁, registrationType := .template, target := t₁,
              modelClass := some S })
          T
          { name := n₂, registrationType := .template, target := t₂,
            variation := some (.plain V) }).registrations
        = [(T ++ ":" ++ S,
            { name := n₁, registrationType := .template, target := t₁,
              modelClass := some S }),
           (T ++ ":" ++ V,
            { name := n₂, registrationType := .template, target := t₂,
              variation := some (.plain V) })] := by
      simp [register, emptyRegistry, pyInsert, hkey1, hkey2, hne12]
    have hv : variationLookupStr (some (.plain V)) = some V := by
      simp [variationLookupStr, hVb]
    -- the registration-table lookup hits the secondary-type key second
    have hres :
        pureLookup
          (register
            (register emptyRegistry T
              { name := n₁, registrationType := .template, target := t₁,
                modelClass := some S })
            T
            { name := n₂, registrationType := .template, target := t₂,
              variation := some (.plain V) }).registrations
          T (some S) (some V) = some (.template t₁) := by
      rw [hregs]
      simp only [pureLookup, tryKeys, hcand1, hcand2]
      simp [pyLookup, hneA, hneB, mappingOfConfig]
    rw [find_template_eval _ _ _ _ rfl]
    simp [hv, hres]

/-- Witness for C3 at `T = "Student"`, `S = "Enrollment"`,
`V = "active"`. -/
theorem c3_secondary_outranks_variation_witness :
    (find_template
      (register
        (register emptyRegistry "Student"
          { name := "student/enrollment.html", registrationType := .template,
            target := "student/enrollment.html", modelClass := some "Enrollment" })
        "Student"
        { name := "student/active.html", registrationType := .template,
          target := "student/active.html",
          variation := some (.plain "active") })
      ⟨"Student", 0⟩ (some "Enrollment") (some (.plain "active"))).1
    = some (.template "student/enrollment.html") :=
  (c3_secondary_outranks_variation "Student" "Enrollment" "active"
    "student/enrollment.html" "student/active.html"
    "student/enrollment.html" "student/active.html"
    (by decide) (by decide) (by decide) (by decide)).2

/-- C1 (counterexample): `safe_macro` does **not** always return a pair —
with a macro whose invocation raises a `TypeError` that is not an
argument-binding failure ("unsupported operand type(s) …": no
"arguments", no "unexpected keyword"), the `TypeError` handler
re-raises and the exception propagates to the caller. -/
theorem c1_safe_macro_counterexample :
    exceptIsOk (safeMacroCall false arithTypeErrorEngine
      "student/profile.html" "render_student" []) = false := by decide

/-- C1 (amended): `safe_macro` returns a structured pair for every
failure **except** a `TypeError` whose lowered message contains neither
`"arguments"` nor `"unexpected keyword"`, which it re-raises; a
`TypeError` that does look like an argument-binding failure is returned
as a `MacroArgumentError` value. -/
theorem c1_safe_macro_containment (d : Bool) (env : MacroEngine)
    (tn mn : String) (ctx : PyDict Val) :
    (exceptIsOk (safeMacroCall d env tn mn ctx) = true
      ∨ ∃ msg, safeMacroCall d env tn mn ctx = .error (.typeError msg)
          ∧ typeErrorLooksLikeArgs msg = false)
  ∧ (∀ (tmpl : TemplateModule) (msg : String),
      env tn = .ok tmpl →
      tmpl.macroDefined mn = true →
      tmpl.macroCall mn (pySetdefault ctx "debug_mode" (.bool d))
        = .error (.typeError msg) →
      typeErrorLooksLikeArgs msg = true →
      safeMacroCall d env tn mn ctx
        = .ok ("", some { error :=
            { errorType := "MacroArgumentError",
              message := "Macro '" ++ mn ++ "' called with wrong arguments: "
                           ++ msg,
              templateName := some tn, macroName := some mn } })) := by
  constructor
  · unfold safeMacroCall
    cases he : env tn with
    | error e =>
      simp only [he]
      exact classifyMacroExc_containment e tn mn
    | ok tmpl =>
      simp only [he]
      by_cases hdef : tmpl.macroDefined mn = true
      · simp only [hdef, if_true]
        cases hc : tmpl.macroCall mn (pySetdefault ctx "debug_mode" (.bool d)) with
        | ok r => left; simp [exceptIsOk]
        | error e => exact classifyMacroExc_containment e tn mn
      · simp only [hdef, if_false]
        left
        simp [exceptIsOk]
  · intro tmpl msg he hdef hcall harg
    unfold safeMacroCall
    simp [he, hdef, hcall, classifyMacroExc, harg]

/-- Witness for C1's amended statement: an arity-mismatch `TypeError` is
classified as `MacroArgumentError` and returned, not raised. -/
theorem c1_safe_macro_containment_witness :
    safeMacroCall false arityErrorEngine "student/profile.html"
      "render_student" []
      = .ok ("", some { error :=
          { errorType := "MacroArgumentError",
            message := "Macro 'render_student' called with wrong arguments: render_student() takes 2 positional arguments but 3 were given",
            templateName := some "student/profile.html",
            macroName := some "render_student" } }) :=
  (c1_safe_macro_containment false arityErrorEngine "student/profile.html"
      "render_student" []).2
    { macroDefined := fun _ => true
      macroCall := fun _ _ =>
        .error (.typeError "render_student() takes 2 positional arguments but 3 were given") }
    "render_student() takes 2 positional arguments but 3 were given"
    rfl rfl rfl (by decide)

/-- C9: `render_obj` never mutates the caller-owned context — the heap
cell passed in is untouched because the code copies it first — and the
defaults are added with `setdefault`, which leaves the dict alone when
the key is present and never changes the value of any existing key. -/
theorem c9_context_not_mutated (st : RegistryState) (d : Bool)
    (te : RenderEngine) (me : MacroEngine) (obj : Obj) (h : Heap) (r : Nat)
    (model : Option String) (variation : Option Variation)
    (hr : r < h.length) :
    heapGet (render_obj st d te me obj h r model variation).2.1 r = heapGet h r
  ∧ (∀ (dict : PyDict Val) (k : String) (v : Val),
      (pyLookup dict k).isSome = true → pySetdefault dict k v = dict)
  ∧ (∀ (dict : PyDict Val) (k k' : String) (v w : Val),
      pyLookup dict k' = some w →
      pyLookup (pySetdefault dict k v) k' = some w) := by
  refine ⟨?_, pyLookup_pySetdefault_present, pyLookup_pySetdefault_of_some⟩
  simp only [render_obj]
  cases hm : (find_template st obj model variation).1 with
  | none => rfl
  | some mp =>
    cases mp with
    | template p =>
      simp only [heapAlloc]
      exact heapGet_set_append h _ _ r hr
    | macroRef tp mn =>
      simp only [heapAlloc]
      exact heapGet_set_append h _ _ r hr

/-- Witness for C9: a one-cell heap holding the caller's context. -/
theorem c9_context_not_mutated_witness :
    0 < ([[("user", Val.str "alice")]] : Heap).length
  ∧ heapGet (render_obj emptyRegistry false undefinedVarEngine
      arithTypeErrorEngine ⟨"School", 0⟩ [[("user", Val.str "alice")]] 0
      none none).2.1 0
    = heapGet [[("user", Val.str "alice")]] 0 :=
  ⟨by decide,
   (c9_context_not_mutated emptyRegistry false undefinedVarEngine
      arithTypeErrorEngine ⟨"School", 0⟩ [[("user", Val.str "alice")]] 0
      none none (by decide)).1⟩

/-- Witness for C10 at `T = "Student"`, `X = "active"`. -/
theorem c10_secondary_variation_key_collision_witness :
    ("active" : String) ≠ ""
  ∧ makeKey "Student" (some "active") none
      = makeKey "Student" none (some (.plain "active")) :=
  ⟨by decide,
   (c10_secondary_variation_key_collision "Student" "active" (by decide)).1⟩

end SmartTemplates
